import Mathlib

/-
Verification development for the TradingView MCP server
(src/src/tradingview_mcp/server.py).

The Python module is shallowly embedded as pure Lean functions:
  - the process-global browser lifecycle (`_playwright`, `_browser`,
    `_context`) becomes an explicit state record `BState`, threaded through
    every operation, extended with event counters (launch / close / page /
    navigation counts) so that resource claims are expressible;
  - the behaviour of the external world (Playwright launch, page creation,
    navigation, selector waits, screenshots, page content, close calls)
    becomes a `World` record of outcomes consulted at the points where the
    Python code awaits the corresponding library call;
  - Python exceptions become `Except PyErr`; a `try/except` in the source
    becomes a `match` on the embedded result;
  - Python truthiness of optional strings / argument values is embedded
    explicitly (`truthy`, `pyTruthy`);
  - `base64.b64encode` is embedded as `b64Encode` over byte lists
    (one output `Char` per base64 character, `=` padding included), with a
    decoder `b64Decode` and a round-trip theorem.
-/

namespace TradingViewMCP

/-- Process environment: the two TradingView credential variables, as
`os.getenv` sees them (`none` = unset). -/
structure Env where
  sessionId : Option String
  sessionIdSign : Option String
deriving DecidableEq

/-- Python truthiness of an optional string: `None` and `""` are falsy. -/
def truthy : Option String → Bool
  | none => false
  | some s => s != ""

/-- Embedded Python values appearing in the `arguments` dict of a tool call. -/
inductive PyVal where
  | str (s : String)
  | num (n : Int)
  | noneV
deriving DecidableEq

/-- Embedded Python exceptions (only the kinds the server can hit). -/
inductive PyErr where
  | valueError
  | typeError
  | launchError
  | pageError
  | gotoError
  | screenshotError
  | closeError
deriving DecidableEq

/-- Python truthiness of `arguments.get(key)`: a missing key gives `None`
(falsy); `""`, `0` and `None` are falsy; everything else is truthy. -/
def pyTruthy : Option PyVal → Bool
  | none => false
  | some (PyVal.str s) => s != ""
  | some (PyVal.num n) => n != 0
  | some PyVal.noneV => false

/-- Python `str()` of an embedded value, as used by f-string interpolation. -/
def pyStr : PyVal → String
  | PyVal.str s => s
  | PyVal.num n => toString n
  | PyVal.noneV => "None"

/-- Decimal digit value of a character, if it is a digit. -/
def digitVal (c : Char) : Option Nat :=
  if 48 ≤ c.toNat ∧ c.toNat ≤ 57 then some (c.toNat - 48) else none

/-- Value of a non-empty all-digit character list, read in base 10. -/
def digitsVal : List Char → Option Nat
  | [] => none
  | l =>
    l.foldl
      (fun acc c =>
        match acc, digitVal c with
        | some n, some d => some (n * 10 + d)
        | _, _ => none)
      (some 0)

/-- Decimal integer parse of a string (optional sign, then digits), the
core of Python `int(str)`. -/
def pyIntParse (s : String) : Option Int :=
  match s.data with
  | '-' :: ds => (digitsVal ds).map (fun n => -(n : Int))
  | '+' :: ds => (digitsVal ds).map (fun n => (n : Int))
  | ds => (digitsVal ds).map (fun n => (n : Int))

/-- Python `int()` coercion: integers pass through, decimal strings parse,
anything else raises (`int("abc")` is a `ValueError`, `int(None)` a
`TypeError`). -/
def pyToInt : PyVal → Except PyErr Int
  | PyVal.num n => Except.ok n
  | PyVal.str s =>
    match pyIntParse s with
    | some n => Except.ok n
    | none => Except.error PyErr.valueError
  | PyVal.noneV => Except.error PyErr.typeError

/-- `arguments.get(key)` on the embedded argument dict. -/
def lookupArg (args : List (String × PyVal)) (key : String) : Option PyVal :=
  List.lookup key args

/-- Outcomes of the external (Playwright) calls the server awaits.  Each
field answers "does this library call succeed, and with what result?" for
the next operation that performs it. -/
structure World where
  launchOk : Bool
  newPageOk : Bool
  goto1Ok : Bool
  goto2Ok : Bool
  sel1Ok : Bool
  sel2Ok : Bool
  screenshot : Option (List Nat)
  vGotoOk : Bool
  pageContent : String
  closeContextOk : Bool
  closeBrowserOk : Bool
  stopPlaywrightOk : Bool

/-- The module-level mutable state of the server (`_playwright`, `_browser`,
`_context`), extended with observation counters: how many browser processes
were ever launched / closed, how many contexts created / closed, how many
pages opened, how many navigation attempts made. -/
structure BState where
  playwright : Option Unit
  browser : Option Unit
  context : Option Unit
  bLaunched : Nat
  bClosed : Nat
  cCreated : Nat
  cClosed : Nat
  pagesOpened : Nat
  navAttempts : Nat
deriving DecidableEq

/-- The state at interpreter start: nothing launched, nothing counted. -/
def initState : BState :=
  { playwright := none, browser := none, context := none,
    bLaunched := 0, bClosed := 0, cCreated := 0, cClosed := 0,
    pagesOpened := 0, navAttempts := 0 }

/-- `get_browser_context`: return the cached context if present; otherwise
check the credentials (raising `ValueError` when either is falsy), start
Playwright if needed, launch the browser if needed (a launch failure raises
out of this function), then create the authenticated context and cache it. -/
def get_browser_context (env : Env) (w : World) (s : BState) :
    Except PyErr Unit × BState :=
  match s.context with
  | some c => (Except.ok c, s)
  | none =>
    if truthy env.sessionId && truthy env.sessionIdSign then
      let s1 : BState := { s with playwright := some () }
      match s1.browser with
      | some _ =>
        (Except.ok (),
          { s1 with context := some (), cCreated := s1.cCreated + 1 })
      | none =>
        if w.launchOk then
          let s2 : BState :=
            { s1 with browser := some (), bLaunched := s1.bLaunched + 1 }
          (Except.ok (),
            { s2 with context := some (), cCreated := s2.cCreated + 1 })
        else
          (Except.error PyErr.launchError, s1)
    else
      (Except.error PyErr.valueError, s)

/-- The chart URL built by `get_chart_snapshot` (query string with symbol,
interval and theme). -/
def chartUrl (symbol interval theme : String) : String :=
  "https://www.tradingview.com/chart/?symbol=" ++ symbol ++
    "&interval=" ++ interval ++ "&theme=" ++ theme

/-- The tail of the capture routine after navigation succeeded: the two
`wait_for_selector` attempts are wrapped in `try/except: pass`, so their
outcomes (`w.sel1Ok`, `w.sel2Ok`) never affect the result; then the fixed
settle sleep, then the screenshot, whose failure raises to the outer
handler. -/
def capture_rest (w : World) (s : BState) : Option (List Nat) × BState :=
  match w.screenshot with
  | some bytes => (some bytes, s)
  | none => (none, s)

/-- `get_chart_snapshot`: the whole body sits in one `try`, whose handler
turns every exception into `None`.  Inside: acquire the shared context, open
a page, navigate (second `goto` attempted when the first raises; if both
raise, the exception escapes to the outer handler), run the swallowed
selector waits, sleep, screenshot. -/
def get_chart_snapshot (env : Env) (w : World) (s : BState)
    (symbol interval : String) (width height : Int) (theme : String) :
    Option (List Nat) × BState :=
  match get_browser_context env w s with
  | (Except.error _, s1) => (none, s1)
  | (Except.ok _, s1) =>
    if w.newPageOk then
      let _viewport := (width, height)
      let _url := chartUrl symbol interval theme
      let s2 : BState := { s1 with pagesOpened := s1.pagesOpened + 1 }
      if w.goto1Ok then
        capture_rest w { s2 with navAttempts := s2.navAttempts + 1 }
      else
        let s3 : BState := { s2 with navAttempts := s2.navAttempts + 2 }
        if w.goto2Ok then capture_rest w s3 else (none, s3)
    else (none, s1)

/-- Python `str.lower()`, character by character (ASCII-adequate for the
strings involved). -/
def pyLower (s : String) : String := String.mk (s.data.map Char.toLower)

/-- Python `needle in hay` on strings: `needle` occurs as a contiguous
substring of `hay`. -/
def strContains (hay needle : String) : Prop :=
  needle.data <:+: hay.data

instance (hay needle : String) : Decidable (strContains hay needle) :=
  inferInstanceAs (Decidable (needle.data <:+: hay.data))

/-- Boolean form of `strContains`. -/
def strContainsB (hay needle : String) : Bool :=
  decide (strContains hay needle)

/-- The authentication heuristic of `validate_session`, exactly as written:
`'sign in' not in content.lower() or 'user-menu' in content.lower()`. -/
def authHeuristic (content : String) : Bool :=
  !(strContainsB (pyLower content) "sign in") ||
    strContainsB (pyLower content) "user-menu"

/-- `validate_session`: the whole body sits in one `try` whose handler turns
every exception into `False`.  Inside: acquire the shared context, open a
page, navigate to the root page, sleep, read the page content, close the
page, apply the heuristic. -/
def validate_session (env : Env) (w : World) (s : BState) : Bool × BState :=
  match get_browser_context env w s with
  | (Except.error _, s1) => (false, s1)
  | (Except.ok _, s1) =>
    if w.newPageOk then
      let s2 : BState := { s1 with pagesOpened := s1.pagesOpened + 1 }
      let s3 : BState := { s2 with navAttempts := s2.navAttempts + 1 }
      if w.vGotoOk then
        (authHeuristic w.pageContent, s3)
      else (false, s3)
    else (false, s1)

/-- Observable close events of `cleanup`, in the order they are performed. -/
inductive CloseEv where
  | closeContext
  | closeBrowser
  | stopPlaywright
deriving DecidableEq

/-- Third step of `cleanup`: `if _playwright: await _playwright.stop();
_playwright = None`. -/
def cleanupP (w : World) (evs : List CloseEv) (s : BState) :
    Except PyErr Unit × List CloseEv × BState :=
  match s.playwright with
  | some _ =>
    if w.stopPlaywrightOk then
      (Except.ok (), evs ++ [CloseEv.stopPlaywright], { s with playwright := none })
    else (Except.error PyErr.closeError, evs, s)
  | none => (Except.ok (), evs, s)

/-- Second step of `cleanup`: `if _browser: await _browser.close();
_browser = None`, then the Playwright step. -/
def cleanupB (w : World) (evs : List CloseEv) (s : BState) :
    Except PyErr Unit × List CloseEv × BState :=
  match s.browser with
  | some _ =>
    if w.closeBrowserOk then
      cleanupP w (evs ++ [CloseEv.closeBrowser])
        { s with browser := none, bClosed := s.bClosed + 1 }
    else (Except.error PyErr.closeError, evs, s)
  | none => cleanupP w evs s

/-- `cleanup`: close the context, then the browser, then stop Playwright,
each step guarded by an `if` that tolerates the handle being absent.  A
failing external close raises out of `cleanup` before the handle is reset
(the assignment to `None` follows the awaited close in the source). -/
def cleanup (w : World) (s : BState) :
    Except PyErr Unit × List CloseEv × BState :=
  match s.context with
  | some _ =>
    if w.closeContextOk then
      cleanupB w [CloseEv.closeContext]
        { s with context := none, cClosed := s.cClosed + 1 }
    else (Except.error PyErr.closeError, [], s)
  | none => cleanupB w [] s

/-- Base64 alphabet, index 0 to 63. -/
def b64Chars : List Char :=
  "ABCDEFGHIJKLMNOPQRSTUVWXYZabcdefghijklmnopqrstuvwxyz0123456789+/".data

/-- Character for a sextet. -/
def b64Char (i : Nat) : Char := b64Chars.getD i 'A'

/-- Index of a base64 character in the alphabet, if any. -/
def b64Idx (c : Char) : Option Nat :=
  b64Chars.findIdx? (fun x => x == c)

/-- `base64.b64encode` over byte lists, one `Char` per output character,
with `=` padding. -/
def b64Encode : List Nat → List Char
  | [] => []
  | [a] =>
    [b64Char (a / 4), b64Char (a % 4 * 16), '=', '=']
  | [a, b] =>
    [b64Char (a / 4), b64Char (a % 4 * 16 + b / 16), b64Char (b % 16 * 4), '=']
  | a :: b :: c :: rest =>
    b64Char (a / 4) :: b64Char (a % 4 * 16 + b / 16) ::
      b64Char (b % 16 * 4 + c / 64) :: b64Char (c % 64) :: b64Encode rest

/-- Base64 decoding (strict: padding only in a final quartet). -/
def b64Decode : List Char → Option (List Nat)
  | [] => some []
  | c1 :: c2 :: c3 :: c4 :: rest =>
    match b64Idx c1, b64Idx c2 with
    | some s0, some s1 =>
      if c3 = '=' then
        if c4 = '=' ∧ rest = [] then some [s0 * 4 + s1 / 16] else none
      else
        match b64Idx c3 with
        | some s2 =>
          if c4 = '=' then
            if rest = [] then
              some [s0 * 4 + s1 / 16, s1 % 16 * 16 + s2 / 4]
            else none
          else
            match b64Idx c4 with
            | some s3 =>
              match b64Decode rest with
              | some bs =>
                some ((s0 * 4 + s1 / 16) :: (s1 % 16 * 16 + s2 / 4) ::
                  (s2 % 4 * 64 + s3) :: bs)
              | none => none
            | none => none
        | none => none
    | _, _ => none
  | _ => none

/-- The configuration-error text returned by `call_tool` when either
credential is missing. -/
def configErrorText : String :=
  "Error: TradingView credentials not found. Please set TRADINGVIEW_SESSION_ID and TRADINGVIEW_SESSION_ID_SIGN in your .env file."

/-- The text response of the `validate_session` tool. -/
def validateText (isValid : Bool) : String :=
  "Session Status: " ++ (if isValid then "✓ Valid" else "✗ Invalid") ++
    "\n\nThe TradingView session credentials are " ++
    (if isValid then "working correctly" else "not working") ++ "."

/-- The text response of the `list_timeframes` tool, built exactly as the
source builds it (dict iteration in insertion order, then the examples). -/
def timeframesText : String :=
  let cats : List (String × List String) :=
    [("Minutes", ["1", "5", "15", "30", "60", "240"]),
     ("Days/Weeks/Months", ["D", "W", "M"])]
  let body := cats.foldl
    (fun acc p =>
      p.2.foldl (fun a i => a ++ "  - " ++ i ++ "\n") (acc ++ p.1 ++ ":\n"))
    "Available TradingView Timeframes:\n\n"
  body ++ "\nExamples:\n" ++ "  - \x275\x27 = 5-minute chart\n" ++
    "  - \x2760\x27 = 1-hour chart\n" ++ "  - \x27D\x27 = Daily chart\n"

/-- The error text for a missing `symbol` argument. -/
def symbolErrorText : String :=
  "Error: \x27symbol\x27 parameter is required. Example: \x27BINANCE:BTCUSDT\x27"

/-- The text summary accompanying a successful snapshot. -/
def snapshotSummary (symbol interval : String) (width height : Int)
    (theme : String) (size : Nat) : String :=
  "Chart snapshot for " ++ symbol ++ " (Interval: " ++ interval ++ ")\n" ++
    "Size: " ++ toString width ++ "x" ++ toString height ++ " | Theme: " ++
    theme ++ "\n" ++ "Image size: " ++ toString size ++ " bytes"

/-- The troubleshooting text returned when the capture yields no image. -/
def snapshotFailText (symbol : String) : String :=
  "Failed to fetch chart snapshot for " ++ symbol ++ ".\n\n" ++
    "Possible reasons:\n" ++
    "1. Invalid symbol format (use \x27EXCHANGE:SYMBOL\x27 format)\n" ++
    "2. Symbol not found on TradingView\n" ++
    "3. Network or timeout issues\n\n" ++
    "Please check your input and try again."

/-- A typed content block of the MCP response envelope.  The image payload
is the base64 character sequence (the `data` string of `ImageContent`). -/
inductive Content where
  | text (t : String)
  | image (data : List Char) (mime : String)
deriving DecidableEq

/-- `call_tool`: the tool dispatcher.  Credentials are checked first for
every tool name; then dispatch on the name.  For `get_chart_snapshot` the
argument extraction performs the `int()` coercions of `width` and `height`
before the `symbol` presence check, so a non-convertible value raises out of
the handler (modelled as `Except.error`).  All other paths return a content
list. -/
def call_tool (env : Env) (w : World) (name : String)
    (args : List (String × PyVal)) (s : BState) :
    Except PyErr (List Content) × BState :=
  if truthy env.sessionId && truthy env.sessionIdSign then
    if name = "validate_session" then
      let r := validate_session env w s
      (Except.ok [Content.text (validateText r.1)], r.2)
    else if name = "list_timeframes" then
      (Except.ok [Content.text timeframesText], s)
    else if name = "get_chart_snapshot" then
      let symbol := lookupArg args "symbol"
      let interval := (lookupArg args "interval").getD (PyVal.str "D")
      match pyToInt ((lookupArg args "width").getD (PyVal.num 1200)) with
      | Except.error e => (Except.error e, s)
      | Except.ok width =>
        match pyToInt ((lookupArg args "height").getD (PyVal.num 600)) with
        | Except.error e => (Except.error e, s)
        | Except.ok height =>
          let theme := (lookupArg args "theme").getD (PyVal.str "dark")
          if pyTruthy symbol then
            let sym := pyStr (symbol.getD PyVal.noneV)
            let r := get_chart_snapshot env w s sym (pyStr interval)
              width height (pyStr theme)
            match r.1 with
            | some bytes =>
              if bytes.isEmpty then
                (Except.ok [Content.text (snapshotFailText sym)], r.2)
              else
                (Except.ok
                  [Content.text (snapshotSummary sym (pyStr interval)
                      width height (pyStr theme) bytes.length),
                   Content.image (b64Encode bytes) "image/png"], r.2)
            | none =>
              (Except.ok [Content.text (snapshotFailText sym)], r.2)
          else
            (Except.ok [Content.text symbolErrorText], s)
    else
      (Except.ok [Content.text ("Unknown tool: " ++ name)], s)
  else
    (Except.ok [Content.text configErrorText], s)

/-
Base64 round-trip facts.
-/

theorem b64Idx_b64Char_fin : ∀ i : Fin 64, b64Idx (b64Char i.val) = some i.val := by
  decide

theorem b64Idx_b64Char (i : Nat) (h : i < 64) : b64Idx (b64Char i) = some i :=
  b64Idx_b64Char_fin ⟨i, h⟩

theorem b64Char_ne_pad_fin : ∀ i : Fin 64, b64Char i.val ≠ '=' := by
  decide

theorem b64Char_ne_pad (i : Nat) (h : i < 64) : b64Char i ≠ '=' :=
  b64Char_ne_pad_fin ⟨i, h⟩

theorem b64_decode_encode :
    ∀ l : List Nat, (∀ x ∈ l, x < 256) → b64Decode (b64Encode l) = some l := by
  intro l
  induction l using b64Encode.induct with
  | case1 =>
    intro _
    rfl
  | case2 a =>
    intro h
    have ha : a < 256 := h a (by simp)
    simp [b64Encode, b64Decode, b64Idx_b64Char (a / 4) (by omega),
      b64Idx_b64Char (a % 4 * 16) (by omega)]
    omega
  | case3 a b =>
    intro h
    have ha : a < 256 := h a (by simp)
    have hb : b < 256 := h b (by simp)
    simp [b64Encode, b64Decode, b64Idx_b64Char (a / 4) (by omega),
      b64Idx_b64Char (a % 4 * 16 + b / 16) (by omega),
      b64Idx_b64Char (b % 16 * 4) (by omega),
      b64Char_ne_pad (b % 16 * 4) (by omega)]
    omega
  | case4 a b c rest ih =>
    intro h
    have ha : a < 256 := h a (by simp)
    have hb : b < 256 := h b (by simp)
    have hc : c < 256 := h c (by simp)
    have hrest : ∀ x ∈ rest, x < 256 := by
      intro x hx
      exact h x (by simp [hx])
    simp [b64Encode, b64Decode, b64Idx_b64Char (a / 4) (by omega),
      b64Idx_b64Char (a % 4 * 16 + b / 16) (by omega),
      b64Idx_b64Char (b % 16 * 4 + c / 64) (by omega),
      b64Idx_b64Char (c % 64) (by omega),
      b64Char_ne_pad (b % 16 * 4 + c / 64) (by omega),
      b64Char_ne_pad (c % 64) (by omega), ih hrest]
    refine ⟨by omega, by omega, by omega⟩

theorem b64_decode_encode_length (l : List Nat) (h : ∀ x ∈ l, x < 256) :
    (b64Decode (b64Encode l)).map List.length = some l.length := by
  rw [b64_decode_encode l h]
  rfl

/-
Browser lifecycle: resource-counting invariant and idempotent acquisition.
-/

/-- Resource bookkeeping invariant: the number of browsers ever launched is
the number ever closed plus the one currently held (if any), and likewise
for contexts.  Hence at most one browser and one context are alive. -/
def Inv (s : BState) : Prop :=
  s.bLaunched = s.bClosed + (if s.browser.isSome then 1 else 0) ∧
  s.cCreated = s.cClosed + (if s.context.isSome then 1 else 0)

/-- One server operation, with the environment and world it runs against. -/
inductive Op where
  | acquire (env : Env) (w : World)
  | snapshot (env : Env) (w : World) (symbol interval : String)
      (width height : Int) (theme : String)
  | validate (env : Env) (w : World)
  | release (w : World)

/-- The state transition of an operation. -/
def applyOp : Op → BState → BState
  | Op.acquire env w, s => (get_browser_context env w s).2
  | Op.snapshot env w sym itv wd ht th, s =>
    (get_chart_snapshot env w s sym itv wd ht th).2
  | Op.validate env w, s => (validate_session env w s).2
  | Op.release w, s => (cleanup w s).2.2

theorem inv_initState : Inv initState := by
  constructor <;> rfl

theorem inv_counters (s : BState) (p n : Nat) :
    Inv { s with pagesOpened := p, navAttempts := n } ↔ Inv s := by
  simp [Inv]

theorem inv_get_browser_context (env : Env) (w : World) (s : BState)
    (h : Inv s) : Inv (get_browser_context env w s).2 := by
  obtain ⟨pw, br, cx, bl, bc, cc, ccl, po, na⟩ := s
  obtain ⟨h1, h2⟩ := h
  simp only [Inv] at h1 h2 ⊢
  unfold get_browser_context
  cases cx with
  | some c => exact ⟨h1, h2⟩
  | none =>
    simp only [Option.isSome_none] at h2
    by_cases hcr : (truthy env.sessionId && truthy env.sessionIdSign) = true
    · simp only [hcr, if_true]
      cases br with
      | some b =>
        simp_all
      | none =>
        by_cases hl : w.launchOk = true <;> simp_all
    · simp only [hcr, if_false, Bool.not_eq_true] at *
      simp [hcr, h1, h2]

theorem inv_capture_rest (w : World) (s : BState) (h : Inv s) :
    Inv (capture_rest w s).2 := by
  unfold capture_rest
  cases w.screenshot <;> exact h

theorem inv_get_chart_snapshot (env : Env) (w : World) (s : BState)
    (symbol interval : String) (width height : Int) (theme : String)
    (h : Inv s) : Inv (get_chart_snapshot env w s symbol interval width height theme).2 := by
  have hacq := inv_get_browser_context env w s h
  unfold get_chart_snapshot
  rcases hg : get_browser_context env w s with ⟨r, s1⟩
  rw [hg] at hacq
  cases r with
  | error e => exact hacq
  | ok u =>
    simp only []
    by_cases hp : w.newPageOk = true
    · simp only [hp, if_true]
      by_cases h1 : w.goto1Ok = true
      · simp only [h1, if_true]
        apply inv_capture_rest
        exact (inv_counters _ _ _).mpr hacq
      · rw [if_neg h1]
        by_cases h2 : w.goto2Ok = true
        · rw [if_pos h2]
          apply inv_capture_rest
          exact (inv_counters _ _ _).mpr hacq
        · rw [if_neg h2]
          exact (inv_counters _ _ _).mpr hacq
    · simp only [hp, Bool.false_eq_true, if_false]
      exact hacq

theorem inv_validate_session (env : Env) (w : World) (s : BState)
    (h : Inv s) : Inv (validate_session env w s).2 := by
  have hacq := inv_get_browser_context env w s h
  unfold validate_session
  rcases hg : get_browser_context env w s with ⟨r, s1⟩
  rw [hg] at hacq
  cases r with
  | error e => exact hacq
  | ok u =>
    simp only []
    by_cases hp : w.newPageOk = true
    · by_cases hv : w.vGotoOk = true <;>
        simp [hp, hv, (inv_counters _ _ _).mpr hacq]
    · simp [hp, hacq]

theorem inv_cleanupP (w : World) (evs : List CloseEv) (s : BState)
    (h : Inv s) : Inv (cleanupP w evs s).2.2 := by
  obtain ⟨pw, br, cx, bl, bc, cc, ccl, po, na⟩ := s
  unfold cleanupP
  cases pw with
  | some u => by_cases hok : w.stopPlaywrightOk = true <;> simp_all [Inv]
  | none => exact h

theorem inv_cleanupB (w : World) (evs : List CloseEv) (s : BState)
    (h : Inv s) : Inv (cleanupB w evs s).2.2 := by
  obtain ⟨pw, br, cx, bl, bc, cc, ccl, po, na⟩ := s
  obtain ⟨h1, h2⟩ := h
  simp only [Inv] at h1 h2
  unfold cleanupB
  cases br with
  | some u =>
    by_cases hok : w.closeBrowserOk = true
    · simp only [hok, if_true]
      apply inv_cleanupP
      simp_all [Inv]
    · simp only [hok, Bool.false_eq_true, if_false]
      exact ⟨h1, h2⟩
  | none =>
    apply inv_cleanupP
    exact ⟨h1, h2⟩

theorem inv_cleanup (w : World) (s : BState) (h : Inv s) :
    Inv (cleanup w s).2.2 := by
  obtain ⟨pw, br, cx, bl, bc, cc, ccl, po, na⟩ := s
  obtain ⟨h1, h2⟩ := h
  simp only [Inv] at h1 h2
  unfold cleanup
  cases cx with
  | some u =>
    by_cases hok : w.closeContextOk = true
    · simp only [hok, if_true]
      apply inv_cleanupB
      simp_all [Inv]
    · simp only [hok, Bool.false_eq_true, if_false]
      exact ⟨h1, h2⟩
  | none =>
    apply inv_cleanupB
    exact ⟨h1, h2⟩

theorem inv_applyOp (op : Op) (s : BState) (h : Inv s) : Inv (applyOp op s) := by
  cases op with
  | acquire env w => exact inv_get_browser_context env w s h
  | snapshot env w sym itv wd ht th =>
    exact inv_get_chart_snapshot env w s sym itv wd ht th h
  | validate env w => exact inv_validate_session env w s h
  | release w => exact inv_cleanup w s h

theorem inv_at_most_one (s : BState) (h : Inv s) :
    s.bLaunched - s.bClosed ≤ 1 ∧ s.cCreated - s.cClosed ≤ 1 := by
  obtain ⟨h1, h2⟩ := h
  constructor <;> [skip; skip] <;> split_ifs at h1 h2 <;> omega

/-- The state after the first successful acquisition from `initState`. -/
def afterFirstAcquire : BState :=
  { playwright := some (), browser := some (), context := some (),
    bLaunched := 1, bClosed := 0, cCreated := 1, cClosed := 0,
    pagesOpened := 0, navAttempts := 0 }

/-- N sequential calls to `get_browser_context`, keeping only the state. -/
def acquireIter (env : Env) (w : World) : Nat → BState → BState
  | 0, s => s
  | n + 1, s => acquireIter env w n (get_browser_context env w s).2

theorem acquire_cached (env : Env) (w : World) (s : BState)
    (hc : s.context = some ()) :
    get_browser_context env w s = (Except.ok (), s) := by
  unfold get_browser_context
  rw [hc]

theorem acquire_first (env : Env) (w : World)
    (h1 : truthy env.sessionId = true) (h2 : truthy env.sessionIdSign = true)
    (h3 : w.launchOk = true) :
    get_browser_context env w initState = (Except.ok (), afterFirstAcquire) := by
  simp [get_browser_context, initState, afterFirstAcquire, h1, h2, h3]

theorem acquireIter_fix (env : Env) (w : World) (n : Nat) :
    acquireIter env w n afterFirstAcquire = afterFirstAcquire := by
  induction n with
  | zero => rfl
  | succ m ih =>
    unfold acquireIter
    rw [acquire_cached env w afterFirstAcquire rfl]
    exact ih

/-
Concrete fixtures used by witnesses and counterexamples.
-/

/-- An environment with both credentials set. -/
def cEnv : Env := { sessionId := some "sid", sessionIdSign := some "sign" }

/-- A world where every external call succeeds and the screenshot yields
three bytes. -/
def wAllOk : World :=
  { launchOk := true, newPageOk := true, goto1Ok := true, goto2Ok := true,
    sel1Ok := true, sel2Ok := true, screenshot := some [1, 2, 3],
    vGotoOk := true, pageContent := "", closeContextOk := true,
    closeBrowserOk := true, stopPlaywrightOk := true }

/-- A world where both selector waits raise (and are swallowed). -/
def wSelFail : World := { wAllOk with sel1Ok := false, sel2Ok := false }

/-- A world where both navigation attempts raise. -/
def wGotoFail : World := { wAllOk with goto1Ok := false, goto2Ok := false }

/-- A world where the browser launch fails. -/
def wNoLaunch : World := { wAllOk with launchOk := false }

/-- The state after one successful acquisition plus one page + navigation. -/
def afterFirstCapture : BState :=
  { afterFirstAcquire with pagesOpened := 1, navAttempts := 1 }

/-- The state after a full successful `cleanup` of `afterFirstAcquire`. -/
def cleanedState : BState :=
  { playwright := none, browser := none, context := none,
    bLaunched := 1, bClosed := 1, cCreated := 1, cClosed := 1,
    pagesOpened := 0, navAttempts := 0 }

/-
Claim theorems.
-/

/-- C1: per process at most one browser handle and one browsing context are
alive at any time (the counting invariant holds initially, is preserved by
every operation, and bounds the alive counts by one), and across N ≥ 1
sequential acquisitions with both credentials present exactly one browser
launch occurs: the first call creates browser and context and every later
call returns the cached context leaving the state unchanged. -/
theorem claim_C1_singleton_lifecycle (env : Env) (w : World)
    (h1 : truthy env.sessionId = true) (h2 : truthy env.sessionIdSign = true)
    (h3 : w.launchOk = true) :
    Inv initState
    ∧ (∀ (op : Op) (s : BState), Inv s → Inv (applyOp op s))
    ∧ (∀ s : BState, Inv s →
        s.bLaunched - s.bClosed ≤ 1 ∧ s.cCreated - s.cClosed ≤ 1)
    ∧ (∀ n : Nat, 1 ≤ n →
        acquireIter env w n initState = afterFirstAcquire
        ∧ (acquireIter env w n initState).bLaunched = 1
        ∧ get_browser_context env w (acquireIter env w n initState) =
            (Except.ok (), acquireIter env w n initState)) := by
  refine ⟨inv_initState, fun op s h => inv_applyOp op s h,
    fun s h => inv_at_most_one s h, ?_⟩
  intro n hn
  obtain ⟨m, rfl⟩ : ∃ m, n = m + 1 := ⟨n - 1, by omega⟩
  have hfix : acquireIter env w (m + 1) initState = afterFirstAcquire := by
    unfold acquireIter
    rw [acquire_first env w h1 h2 h3]
    exact acquireIter_fix env w m
  refine ⟨hfix, by rw [hfix]; rfl, ?_⟩
  rw [hfix]
  exact acquire_cached env w afterFirstAcquire rfl

theorem claim_C1_witness :
    truthy cEnv.sessionId = true ∧ truthy cEnv.sessionIdSign = true
    ∧ wAllOk.launchOk = true
    ∧ (acquireIter cEnv wAllOk 3 initState).bLaunched = 1 :=
  ⟨rfl, rfl, rfl,
    ((claim_C1_singleton_lifecycle cEnv wAllOk rfl rfl rfl).2.2.2 3
      (by omega)).2.1⟩

/-- C2: with either credential absent, every tool invocation (any of the
three names, and unknown names) returns the configuration-error text
response and leaves the state untouched (in particular no browser launch is
attempted). -/
theorem claim_C2_missing_credentials (env : Env) (w : World) (name : String)
    (args : List (String × PyVal)) (s : BState)
    (h : env.sessionId = none ∨ env.sessionIdSign = none) :
    call_tool env w name args s = (Except.ok [Content.text configErrorText], s) := by
  have hcr : (truthy env.sessionId && truthy env.sessionIdSign) = false := by
    rcases h with h | h <;> simp [h, truthy]
  unfold call_tool
  rw [hcr]
  rfl

theorem claim_C2_witness :
    ((⟨none, some "sign"⟩ : Env).sessionId = none
      ∨ (⟨none, some "sign"⟩ : Env).sessionIdSign = none)
    ∧ call_tool ⟨none, some "sign"⟩ wAllOk "get_chart_snapshot"
        [("symbol", PyVal.str "BINANCE:BTCUSDT")] initState =
      (Except.ok [Content.text configErrorText], initState) :=
  ⟨Or.inl rfl,
    claim_C2_missing_credentials ⟨none, some "sign"⟩ wAllOk "get_chart_snapshot"
      [("symbol", PyVal.str "BINANCE:BTCUSDT")] initState (Or.inl rfl)⟩

set_option maxRecDepth 8192 in
/-- C6 counterexample: with both credentials absent, `list_timeframes` does
NOT return the timeframe enumeration; it returns the configuration-error
text, which differs from the timeframe text.  This refutes "regardless of
environment variables". -/
theorem claim_C6_counterexample :
    (call_tool ⟨none, none⟩ wAllOk "list_timeframes" [] initState).1 =
      Except.ok [Content.text configErrorText]
    ∧ configErrorText ≠ timeframesText := by
  refine ⟨rfl, ?_⟩
  set_option maxRecDepth 100000 in decide

set_option maxRecDepth 100000 in
/-- C6 (amended: with both credentials present in the environment):
`list_timeframes` is pure and deterministic — for every world, argument
dict and prior state it returns the one fixed text response, leaves the
state untouched, and that text enumerates each timeframe of
{1,5,15,30,60,240,D,W,M}. -/
theorem claim_C6_list_timeframes (env : Env) (w : World)
    (args : List (String × PyVal)) (s : BState)
    (h1 : truthy env.sessionId = true) (h2 : truthy env.sessionIdSign = true) :
    call_tool env w "list_timeframes" args s =
      (Except.ok [Content.text timeframesText], s)
    ∧ ∀ c ∈ ["1", "5", "15", "30", "60", "240", "D", "W", "M"],
        strContains timeframesText c := by
  constructor
  · unfold call_tool
    rw [h1, h2]
    rfl
  · decide

theorem claim_C6_witness :
    truthy cEnv.sessionId = true ∧ truthy cEnv.sessionIdSign = true
    ∧ call_tool cEnv wAllOk "list_timeframes" [] initState =
        (Except.ok [Content.text timeframesText], initState) :=
  ⟨rfl, rfl, (claim_C6_list_timeframes cEnv wAllOk [] initState rfl rfl).1⟩

theorem cleanupP_ok_char (w : World) (evs : List CloseEv) (s : BState)
    (evs1 : List CloseEv) (s1 : BState)
    (h : cleanupP w evs s = (Except.ok (), evs1, s1)) :
    s1.playwright = none ∧ s1.browser = s.browser ∧ s1.context = s.context := by
  unfold cleanupP at h
  rcases hp : s.playwright with _ | u <;> rw [hp] at h
  · have hss : s = s1 := congrArg (fun p => p.2.2) h
    subst hss
    exact ⟨hp, rfl, rfl⟩
  · split_ifs at h with hok
    · have hss : { s with playwright := none } = s1 :=
        congrArg (fun p => p.2.2) h
      subst hss
      exact ⟨rfl, rfl, rfl⟩
    · exact absurd (congrArg (fun p => p.1) h) (by simp)

theorem cleanupB_ok_char (w : World) (evs : List CloseEv) (s : BState)
    (evs1 : List CloseEv) (s1 : BState)
    (h : cleanupB w evs s = (Except.ok (), evs1, s1)) :
    s1.playwright = none ∧ s1.browser = none ∧ s1.context = s.context := by
  unfold cleanupB at h
  rcases hb : s.browser with _ | u <;> rw [hb] at h
  · obtain ⟨hp, hbr, hcx⟩ := cleanupP_ok_char w evs s evs1 s1 h
    exact ⟨hp, hbr.trans hb, hcx⟩
  · split_ifs at h with hok
    · obtain ⟨hp, hbr, hcx⟩ := cleanupP_ok_char w _ _ _ _ h
      exact ⟨hp, hbr, hcx⟩
    · exact absurd (congrArg (fun p => p.1) h) (by simp)

theorem cleanup_ok_char (w : World) (s : BState) (evs1 : List CloseEv)
    (s1 : BState) (h : cleanup w s = (Except.ok (), evs1, s1)) :
    s1.playwright = none ∧ s1.browser = none ∧ s1.context = none := by
  unfold cleanup at h
  rcases hc : s.context with _ | u <;> rw [hc] at h
  · obtain ⟨hp, hbr, hcx⟩ := cleanupB_ok_char w _ _ _ _ h
    exact ⟨hp, hbr, hcx.trans hc⟩
  · split_ifs at h with hok
    · obtain ⟨hp, hbr, hcx⟩ := cleanupB_ok_char w _ _ _ _ h
      exact ⟨hp, hbr, hcx⟩
    · exact absurd (congrArg (fun p => p.1) h) (by simp)

theorem cleanup_all_none (w : World) (s : BState) (hcx : s.context = none)
    (hbr : s.browser = none) (hpw : s.playwright = none) :
    cleanup w s = (Except.ok (), [], s) := by
  unfold cleanup cleanupB cleanupP
  rw [hcx, hbr, hpw]

theorem cleanup_events_sublist (w : World) (s : BState) :
    List.Sublist (cleanup w s).2.1
      [CloseEv.closeContext, CloseEv.closeBrowser, CloseEv.stopPlaywright] := by
  unfold cleanup cleanupB cleanupP
  rcases s.context with _ | u <;> rcases s.browser with _ | v <;>
    rcases s.playwright with _ | x <;> split_ifs <;> simp

/-- C7: `cleanup` called before any acquisition raises nothing, performs no
close, and leaves the state untouched; whenever a `cleanup` call completes
without raising, all three handles are gone and a second call (under any
world) raises nothing, performs no close, and changes nothing; and the
closes a `cleanup` call performs are an in-order subsequence of
context-close, browser-close, playwright-stop. -/
theorem claim_C7_cleanup_idempotent (w w2 : World) (s : BState) :
    cleanup w initState = (Except.ok (), [], initState)
    ∧ (∀ (evs : List CloseEv) (s1 : BState),
        cleanup w s = (Except.ok (), evs, s1) →
        s1.context = none ∧ s1.browser = none ∧ s1.playwright = none
        ∧ cleanup w2 s1 = (Except.ok (), [], s1))
    ∧ List.Sublist (cleanup w s).2.1
        [CloseEv.closeContext, CloseEv.closeBrowser, CloseEv.stopPlaywright] := by
  refine ⟨rfl, ?_, cleanup_events_sublist w s⟩
  intro evs s1 hcl
  obtain ⟨hp, hbr, hcx⟩ := cleanup_ok_char w s evs s1 hcl
  exact ⟨hcx, hbr, hp, cleanup_all_none w2 s1 hcx hbr hp⟩

theorem claim_C7_witness :
    cleanup wAllOk initState = (Except.ok (), [], initState)
    ∧ cleanup wAllOk cleanedState = (Except.ok (), [], cleanedState) := by
  have h := claim_C7_cleanup_idempotent wAllOk wAllOk afterFirstAcquire
  exact ⟨h.1,
    (h.2.1 [CloseEv.closeContext, CloseEv.closeBrowser, CloseEv.stopPlaywright]
      cleanedState rfl).2.2.2⟩

/-- Whether an embedded result is a normal return (no exception). -/
def exceptOk {ε α : Type} : Except ε α → Bool
  | Except.ok _ => true
  | Except.error _ => false

/-- Whether `get_browser_context` returns normally: either the context is
cached, or the credentials are truthy and a browser is either cached or can
be launched. -/
def acquireOkB (env : Env) (w : World) (s : BState) : Bool :=
  s.context.isSome ||
    (truthy env.sessionId && truthy env.sessionIdSign &&
      (s.browser.isSome || w.launchOk))

/-- Whether a `validate_session` run sees no exception: acquisition, page
creation and the root-page navigation all succeed. -/
def validateExnFree (env : Env) (w : World) (s : BState) : Bool :=
  acquireOkB env w s && w.newPageOk && w.vGotoOk

theorem acquire_ok_iff (env : Env) (w : World) (s : BState) :
    exceptOk (get_browser_context env w s).1 = acquireOkB env w s := by
  obtain ⟨pw, br, cx, bl, bc, cc, ccl, po, na⟩ := s
  unfold get_browser_context acquireOkB
  cases cx with
  | some u => simp [exceptOk]
  | none =>
    by_cases hcr : (truthy env.sessionId && truthy env.sessionIdSign) = true
    · cases br with
      | some v => simp [hcr, exceptOk]
      | none =>
        by_cases hl : w.launchOk = true <;> simp [hcr, hl, exceptOk]
    · rw [Bool.not_eq_true] at hcr
      cases br <;> simp [hcr, exceptOk]

/-- C8: `validate_session` returns `false` whenever any exception occurs
during the check, and otherwise returns exactly the heuristic
`'sign in' not in content.lower() or 'user-menu' in content.lower()`
(the OR preserved as written). -/
theorem claim_C8_validate_heuristic (env : Env) (w : World) (s : BState) :
    ((validate_session env w s).1 =
      if validateExnFree env w s then authHeuristic w.pageContent else false)
    ∧ (∀ content : String, authHeuristic content = true ↔
        (¬ strContains (pyLower content) "sign in"
          ∨ strContains (pyLower content) "user-menu")) := by
  constructor
  · have hiff := acquire_ok_iff env w s
    unfold validate_session
    rcases hg : get_browser_context env w s with ⟨r, s1⟩
    rw [hg] at hiff
    cases r with
    | error e =>
      have hb : acquireOkB env w s = false := by rw [← hiff]; rfl
      simp [validateExnFree, hb]
    | ok u =>
      have hb : acquireOkB env w s = true := by rw [← hiff]; rfl
      by_cases hp : w.newPageOk = true
      · by_cases hv : w.vGotoOk = true <;>
          simp [validateExnFree, hb, hp, hv]
      · rw [Bool.not_eq_true] at hp
        simp [validateExnFree, hb, hp]
  · intro content
    simp [authHeuristic, strContainsB, Bool.or_eq_true, Bool.not_eq_true,
      decide_eq_true_eq, decide_eq_false_iff_not]

/-- A world whose root page content carries the user-menu marker. -/
def wMenu : World :=
  { wAllOk with pageContent := "Welcome. <div class=\x22user-menu\x22>" }

theorem claim_C8_witness :
    (validate_session cEnv wNoLaunch initState).1 = false
    ∧ (validate_session cEnv wMenu initState).1 = true
    ∧ (validate_session cEnv wMenu initState).1 =
        (if validateExnFree cEnv wMenu initState then
          authHeuristic wMenu.pageContent else false) :=
  ⟨by rfl, by rfl, (claim_C8_validate_heuristic cEnv wMenu initState).1⟩

theorem strContains_self (b : String) : strContains b b :=
  ⟨[], [], by simp⟩

theorem strContains_appendL (a b c : String) (h : strContains a c) :
    strContains (a ++ b) c := by
  obtain ⟨u, v, huv⟩ := h
  exact ⟨u, v ++ b.data, by simp [← huv]⟩

theorem strContains_appendR (a b c : String) (h : strContains b c) :
    strContains (a ++ b) c := by
  obtain ⟨u, v, huv⟩ := h
  exact ⟨a.data ++ u, v, by simp [← huv]⟩

theorem summary_contains_symbol (symbol interval : String)
    (width height : Int) (theme : String) (size : Nat) :
    strContains (snapshotSummary symbol interval width height theme size) symbol := by
  unfold snapshotSummary
  apply strContains_appendL
  apply strContains_appendL
  apply strContains_appendL
  apply strContains_appendL
  apply strContains_appendL
  apply strContains_appendL
  apply strContains_appendL
  apply strContains_appendL
  apply strContains_appendL
  apply strContains_appendL
  apply strContains_appendL
  apply strContains_appendL
  apply strContains_appendL
  exact strContains_appendR _ _ _ (strContains_self symbol)

theorem summary_contains_interval (symbol interval : String)
    (width height : Int) (theme : String) (size : Nat) :
    strContains (snapshotSummary symbol interval width height theme size) interval := by
  unfold snapshotSummary
  apply strContains_appendL
  apply strContains_appendL
  apply strContains_appendL
  apply strContains_appendL
  apply strContains_appendL
  apply strContains_appendL
  apply strContains_appendL
  apply strContains_appendL
  apply strContains_appendL
  apply strContains_appendL
  apply strContains_appendL
  exact strContains_appendR _ _ _ (strContains_self interval)

theorem summary_contains_size (symbol interval : String)
    (width height : Int) (theme : String) (size : Nat) :
    strContains (snapshotSummary symbol interval width height theme size)
      (toString size) := by
  unfold snapshotSummary
  apply strContains_appendL
  exact strContains_appendR _ _ _ (strContains_self (toString size))

/-- C3: a `get_chart_snapshot` call whose symbol argument is present (a
non-empty string), whose width/height coerce, and whose capture succeeds
with nonempty image bytes, returns exactly two content blocks: a text
summary containing the symbol, the interval and the byte size, then an
image block with MIME type `image/png` whose base64 payload decodes back to
the bytes, so the decoded length equals the reported size. -/
theorem claim_C3_snapshot_success (env : Env) (w : World)
    (args : List (String × PyVal)) (s s1 : BState)
    (symbol interval theme : String) (width height : Int) (bytes : List Nat)
    (h1 : truthy env.sessionId = true) (h2 : truthy env.sessionIdSign = true)
    (hsym : lookupArg args "symbol" = some (PyVal.str symbol))
    (hne : symbol ≠ "")
    (hitv : (lookupArg args "interval").getD (PyVal.str "D") = PyVal.str interval)
    (hth : (lookupArg args "theme").getD (PyVal.str "dark") = PyVal.str theme)
    (hwd : pyToInt ((lookupArg args "width").getD (PyVal.num 1200)) = Except.ok width)
    (hht : pyToInt ((lookupArg args "height").getD (PyVal.num 600)) = Except.ok height)
    (hcap : get_chart_snapshot env w s symbol interval width height theme =
      (some bytes, s1))
    (hbne : bytes ≠ [])
    (hlt : ∀ x ∈ bytes, x < 256) :
    call_tool env w "get_chart_snapshot" args s =
      (Except.ok
        [Content.text (snapshotSummary symbol interval width height theme bytes.length),
         Content.image (b64Encode bytes) "image/png"], s1)
    ∧ strContains (snapshotSummary symbol interval width height theme bytes.length) symbol
    ∧ strContains (snapshotSummary symbol interval width height theme bytes.length) interval
    ∧ strContains (snapshotSummary symbol interval width height theme bytes.length)
        (toString bytes.length)
    ∧ b64Decode (b64Encode bytes) = some bytes
    ∧ (b64Decode (b64Encode bytes)).map List.length = some bytes.length := by
  refine ⟨?_, summary_contains_symbol symbol interval width height theme bytes.length,
    summary_contains_interval symbol interval width height theme bytes.length,
    summary_contains_size symbol interval width height theme bytes.length,
    b64_decode_encode bytes hlt, b64_decode_encode_length bytes hlt⟩
  have hemp : bytes.isEmpty = false := by
    cases bytes with
    | nil => exact absurd rfl hbne
    | cons b bs => rfl
  unfold call_tool
  simp only [h1, h2, Bool.and_self, if_true]
  simp only [hsym, hitv, hth, hwd, hht, Option.getD_some, pyStr, pyTruthy,
    bne_iff_ne, ne_eq, hne, not_false_eq_true, if_true, hcap, hemp,
    Bool.false_eq_true, if_false]
  rw [if_neg (show ¬("get_chart_snapshot" = "validate_session") by decide),
    if_neg (show ¬("get_chart_snapshot" = "list_timeframes") by decide)]

theorem claim_C3_witness :
    get_chart_snapshot cEnv wAllOk initState "BINANCE:BTCUSDT" "D" 1200 600 "dark" =
      (some [1, 2, 3], afterFirstCapture)
    ∧ call_tool cEnv wAllOk "get_chart_snapshot"
        [("symbol", PyVal.str "BINANCE:BTCUSDT")] initState =
      (Except.ok
        [Content.text (snapshotSummary "BINANCE:BTCUSDT" "D" 1200 600 "dark" 3),
         Content.image (b64Encode [1, 2, 3]) "image/png"], afterFirstCapture)
    ∧ b64Decode (b64Encode [1, 2, 3]) = some [1, 2, 3] :=
  have h := claim_C3_snapshot_success cEnv wAllOk
    [("symbol", PyVal.str "BINANCE:BTCUSDT")] initState afterFirstCapture
    "BINANCE:BTCUSDT" "D" "dark" 1200 600 [1, 2, 3]
    rfl rfl rfl (by decide) rfl rfl rfl rfl rfl (by decide) (by decide)
  ⟨rfl, h.1, h.2.2.2.2.1⟩

/-- Capture returns `None` whenever an exception escapes to its outer
handler: the acquisition raised, or the page could not be opened, or both
navigation attempts raised, or the screenshot raised. -/
theorem capture_none_cases (env : Env) (w : World) (s : BState)
    (symbol interval : String) (width height : Int) (theme : String)
    (hf : (∃ e, (get_browser_context env w s).1 = Except.error e)
      ∨ w.newPageOk = false
      ∨ (w.goto1Ok = false ∧ w.goto2Ok = false)
      ∨ w.screenshot = none) :
    (get_chart_snapshot env w s symbol interval width height theme).1 = none := by
  unfold get_chart_snapshot
  rcases hg : get_browser_context env w s with ⟨r, s1⟩
  simp only [hg]
  cases r with
  | error e => rfl
  | ok u =>
    rcases hf with ⟨e, he⟩ | hp | ⟨hg1, hg2⟩ | hs
    · rw [hg] at he
      exact absurd he (by simp)
    · simp [hp]
    · by_cases hp : w.newPageOk = true <;> simp [hp, hg1, hg2, capture_rest]
    · by_cases hp : w.newPageOk = true
      · by_cases hg1 : w.goto1Ok = true
        · simp [hp, hg1, hs, capture_rest]
        · by_cases hg2 : w.goto2Ok = true <;>
            simp [hp, hg1, hg2, hs, capture_rest]
      · simp [hp]

/-- The dispatcher path for `get_chart_snapshot` when the capture yields no
image: a single troubleshooting text block, no raising. -/
theorem call_tool_snapshot_fail (env : Env) (w : World)
    (args : List (String × PyVal)) (s : BState)
    (symbol interval theme : String) (width height : Int)
    (h1 : truthy env.sessionId = true) (h2 : truthy env.sessionIdSign = true)
    (hsym : lookupArg args "symbol" = some (PyVal.str symbol))
    (hne : symbol ≠ "")
    (hitv : (lookupArg args "interval").getD (PyVal.str "D") = PyVal.str interval)
    (hth : (lookupArg args "theme").getD (PyVal.str "dark") = PyVal.str theme)
    (hwd : pyToInt ((lookupArg args "width").getD (PyVal.num 1200)) = Except.ok width)
    (hht : pyToInt ((lookupArg args "height").getD (PyVal.num 600)) = Except.ok height)
    (hnone : (get_chart_snapshot env w s symbol interval width height theme).1 = none) :
    call_tool env w "get_chart_snapshot" args s =
      (Except.ok [Content.text (snapshotFailText symbol)],
       (get_chart_snapshot env w s symbol interval width height theme).2) := by
  unfold call_tool
  simp only [h1, h2, Bool.and_self, if_true]
  simp only [hsym, hitv, hth, hwd, hht, Option.getD_some, pyStr, pyTruthy,
    bne_iff_ne, ne_eq, hne, not_false_eq_true, if_true, hnone]
  rw [if_neg (show ¬("get_chart_snapshot" = "validate_session") by decide),
    if_neg (show ¬("get_chart_snapshot" = "list_timeframes") by decide)]

/-- C4 counterexample: an exception raised during waiting (both selector
waits fail) does NOT yield a no-image outcome — the capture still succeeds
and the dispatcher returns a text block plus an image block, refuting the
claim for exceptions raised during waiting. -/
theorem claim_C4_counterexample :
    (call_tool cEnv wSelFail "get_chart_snapshot"
      [("symbol", PyVal.str "BINANCE:BTCUSDT")] initState).1 =
    Except.ok
      [Content.text (snapshotSummary "BINANCE:BTCUSDT" "D" 1200 600 "dark" 3),
       Content.image (b64Encode [1, 2, 3]) "image/png"] := by
  rfl

/-- C4 (amended: for exceptions that escape to the capture routine's outer
handler — both navigation attempts raise, or the screenshot raises;
selector-wait exceptions are swallowed by inner handlers and do not fail
the capture): the capture yields an explicit no-image outcome and the
dispatcher returns a single text block of troubleshooting guidance, with no
image block, completing without raising. -/
theorem claim_C4_capture_failure_textual (env : Env) (w : World)
    (args : List (String × PyVal)) (s : BState)
    (symbol interval theme : String) (width height : Int)
    (h1 : truthy env.sessionId = true) (h2 : truthy env.sessionIdSign = true)
    (hsym : lookupArg args "symbol" = some (PyVal.str symbol))
    (hne : symbol ≠ "")
    (hitv : (lookupArg args "interval").getD (PyVal.str "D") = PyVal.str interval)
    (hth : (lookupArg args "theme").getD (PyVal.str "dark") = PyVal.str theme)
    (hwd : pyToInt ((lookupArg args "width").getD (PyVal.num 1200)) = Except.ok width)
    (hht : pyToInt ((lookupArg args "height").getD (PyVal.num 600)) = Except.ok height)
    (hfail : (w.goto1Ok = false ∧ w.goto2Ok = false) ∨ w.screenshot = none) :
    (get_chart_snapshot env w s symbol interval width height theme).1 = none
    ∧ call_tool env w "get_chart_snapshot" args s =
      (Except.ok [Content.text (snapshotFailText symbol)],
       (get_chart_snapshot env w s symbol interval width height theme).2) := by
  have hnone := capture_none_cases env w s symbol interval width height theme
    (Or.inr (Or.inr hfail))
  exact ⟨hnone, call_tool_snapshot_fail env w args s symbol interval theme
    width height h1 h2 hsym hne hitv hth hwd hht hnone⟩

theorem claim_C4_witness :
    ((wGotoFail.goto1Ok = false ∧ wGotoFail.goto2Ok = false)
      ∨ wGotoFail.screenshot = none)
    ∧ call_tool cEnv wGotoFail "get_chart_snapshot"
        [("symbol", PyVal.str "BINANCE:BTCUSDT")] initState =
      (Except.ok [Content.text (snapshotFailText "BINANCE:BTCUSDT")],
       (get_chart_snapshot cEnv wGotoFail initState "BINANCE:BTCUSDT" "D"
         1200 600 "dark").2) :=
  ⟨Or.inl ⟨rfl, rfl⟩,
    (claim_C4_capture_failure_textual cEnv wGotoFail
      [("symbol", PyVal.str "BINANCE:BTCUSDT")] initState
      "BINANCE:BTCUSDT" "D" "dark" 1200 600
      rfl rfl rfl (by decide) rfl rfl rfl rfl (Or.inl ⟨rfl, rfl⟩)).2⟩

/-- With credentials present but no cached browser or context, a failing
browser launch makes `get_browser_context` raise `launchError`, leaving the
started Playwright handle behind. -/
theorem acquire_launch_fail (env : Env) (w : World) (s : BState)
    (h1 : truthy env.sessionId = true) (h2 : truthy env.sessionIdSign = true)
    (hL : w.launchOk = false) (hcx : s.context = none) (hbr : s.browser = none) :
    get_browser_context env w s =
      (Except.error PyErr.launchError, { s with playwright := some () }) := by
  obtain ⟨pw, br, cx, bl, bc, cc, ccl, po, na⟩ := s
  simp only at hcx hbr
  subst hcx
  subst hbr
  unfold get_browser_context
  simp [h1, h2, hL]

/-- C5 counterexample: with credentials present and a failing browser
launch, both browsing operations complete with a normal textual response
(`Except.ok`), so the launch failure does NOT propagate out of the
operation. -/
theorem claim_C5_counterexample :
    (call_tool cEnv wNoLaunch "validate_session" [] initState).1 =
      Except.ok [Content.text (validateText false)]
    ∧ (call_tool cEnv wNoLaunch "get_chart_snapshot"
        [("symbol", PyVal.str "BINANCE:BTCUSDT")] initState).1 =
      Except.ok [Content.text (snapshotFailText "BINANCE:BTCUSDT")] :=
  ⟨by rfl, by rfl⟩

/-- C5 (amended: the launch failure is caught, not propagated — each
browsing operation's generic exception handler converts it into that
operation's textual failure response): with credentials present, no cached
browser/context and a failing launch, `validate_session` reports an invalid
session and `get_chart_snapshot` reports the capture-failure text; neither
call raises. -/
theorem claim_C5_launch_failure_caught (env : Env) (w : World)
    (args : List (String × PyVal)) (s : BState) (sym : String)
    (h1 : truthy env.sessionId = true) (h2 : truthy env.sessionIdSign = true)
    (hL : w.launchOk = false) (hcx : s.context = none) (hbr : s.browser = none)
    (hsymne : sym ≠ "") :
    (call_tool env w "validate_session" args s).1 =
      Except.ok [Content.text (validateText false)]
    ∧ (call_tool env w "get_chart_snapshot" [("symbol", PyVal.str sym)] s).1 =
      Except.ok [Content.text (snapshotFailText sym)] := by
  have hacq := acquire_launch_fail env w s h1 h2 hL hcx hbr
  constructor
  · have hval : (validate_session env w s).1 = false := by
      unfold validate_session
      rw [hacq]
    unfold call_tool
    simp only [h1, h2, Bool.and_self, if_true]
    rw [hval]
  · have hnone : (get_chart_snapshot env w s sym "D" 1200 600 "dark").1 = none :=
      capture_none_cases env w s sym "D" 1200 600 "dark"
        (Or.inl ⟨PyErr.launchError, by rw [hacq]⟩)
    have := call_tool_snapshot_fail env w [("symbol", PyVal.str sym)] s
      sym "D" "dark" 1200 600 h1 h2 rfl hsymne rfl rfl rfl rfl hnone
    rw [this]

theorem claim_C5_witness :
    wNoLaunch.launchOk = false ∧ initState.context = none
    ∧ initState.browser = none
    ∧ (call_tool cEnv wNoLaunch "validate_session" [] initState).1 =
        Except.ok [Content.text (validateText false)] :=
  ⟨rfl, rfl, rfl,
    (claim_C5_launch_failure_caught cEnv wNoLaunch [] initState "BINANCE:BTCUSDT"
      rfl rfl rfl rfl rfl (by decide)).1⟩

/-- C9 counterexample: a `get_chart_snapshot` invocation whose arguments
lack `symbol` but carry a non-convertible `width` raises (`Except.error`)
instead of returning the missing-symbol error text, because the `int()`
coercion runs first. -/
theorem claim_C9_counterexample :
    call_tool cEnv wAllOk "get_chart_snapshot" [("width", PyVal.str "abc")]
      initState = (Except.error PyErr.valueError, initState) := by
  rfl

/-- C9 (amended: provided the width and height arguments are absent or
integer-convertible): a `get_chart_snapshot` invocation with credentials
present whose arguments lack the `symbol` key or bind it to the empty
string returns the missing-symbol error text and leaves the state untouched
— the capture routine is never invoked, no page is opened and no navigation
occurs. -/
theorem claim_C9_missing_symbol (env : Env) (w : World)
    (args : List (String × PyVal)) (s : BState)
    (h1 : truthy env.sessionId = true) (h2 : truthy env.sessionIdSign = true)
    (hsym : lookupArg args "symbol" = none
      ∨ lookupArg args "symbol" = some (PyVal.str ""))
    (hwd : ∃ wv, pyToInt ((lookupArg args "width").getD (PyVal.num 1200)) =
      Except.ok wv)
    (hht : ∃ hv, pyToInt ((lookupArg args "height").getD (PyVal.num 600)) =
      Except.ok hv) :
    call_tool env w "get_chart_snapshot" args s =
      (Except.ok [Content.text symbolErrorText], s) := by
  obtain ⟨wv, hwv⟩ := hwd
  obtain ⟨hv, hhv⟩ := hht
  have hfalsy : pyTruthy (lookupArg args "symbol") = false := by
    rcases hsym with h | h <;> simp [h, pyTruthy]
  unfold call_tool
  simp only [h1, h2, Bool.and_self, if_true]
  simp only [hwv, hhv, hfalsy, Bool.false_eq_true, if_false]
  rw [if_neg (show ¬("get_chart_snapshot" = "validate_session") by decide),
    if_neg (show ¬("get_chart_snapshot" = "list_timeframes") by decide)]

theorem claim_C9_witness :
    (lookupArg ([] : List (String × PyVal)) "symbol" = none
      ∨ lookupArg ([] : List (String × PyVal)) "symbol" = some (PyVal.str ""))
    ∧ call_tool cEnv wAllOk "get_chart_snapshot" [] initState =
        (Except.ok [Content.text symbolErrorText], initState) :=
  ⟨Or.inl rfl,
    claim_C9_missing_symbol cEnv wAllOk [] initState rfl rfl (Or.inl rfl)
      ⟨1200, rfl⟩ ⟨600, rfl⟩⟩

/-- C10: for a `get_chart_snapshot` invocation with credentials present,
a width (or height) argument that fails the `int()` coercion makes the
dispatcher raise the coercion exception out of the tool handler — no text
response is produced and the state is untouched — because the coercions run
before the symbol-presence check; this holds for any argument dict,
including ones that also lack `symbol`. -/
theorem claim_C10_dimension_coercion_raises (env : Env) (w : World)
    (args : List (String × PyVal)) (s : BState)
    (h1 : truthy env.sessionId = true) (h2 : truthy env.sessionIdSign = true) :
    (∀ e : PyErr,
      pyToInt ((lookupArg args "width").getD (PyVal.num 1200)) = Except.error e →
      call_tool env w "get_chart_snapshot" args s = (Except.error e, s))
    ∧ (∀ (wv : Int) (e : PyErr),
      pyToInt ((lookupArg args "width").getD (PyVal.num 1200)) = Except.ok wv →
      pyToInt ((lookupArg args "height").getD (PyVal.num 600)) = Except.error e →
      call_tool env w "get_chart_snapshot" args s = (Except.error e, s)) := by
  constructor
  · intro e he
    unfold call_tool
    simp only [h1, h2, Bool.and_self, if_true, he]
    rw [if_neg (show ¬("get_chart_snapshot" = "validate_session") by decide),
      if_neg (show ¬("get_chart_snapshot" = "list_timeframes") by decide)]
  · intro wv e hw he
    unfold call_tool
    simp only [h1, h2, Bool.and_self, if_true, hw, he]
    rw [if_neg (show ¬("get_chart_snapshot" = "validate_session") by decide),
      if_neg (show ¬("get_chart_snapshot" = "list_timeframes") by decide)]

theorem claim_C10_witness :
    pyToInt ((lookupArg [("width", PyVal.str "abc")] "width").getD
      (PyVal.num 1200)) = Except.error PyErr.valueError
    ∧ call_tool cEnv wAllOk "get_chart_snapshot" [("width", PyVal.str "abc")]
        initState = (Except.error PyErr.valueError, initState)
    ∧ call_tool cEnv wAllOk "get_chart_snapshot" [("height", PyVal.noneV)]
        initState = (Except.error PyErr.typeError, initState) :=
  ⟨rfl,
    (claim_C10_dimension_coercion_raises cEnv wAllOk
      [("width", PyVal.str "abc")] initState rfl rfl).1 PyErr.valueError rfl,
    (claim_C10_dimension_coercion_raises cEnv wAllOk
      [("height", PyVal.noneV)] initState rfl rfl).2 1200 PyErr.typeError rfl rfl⟩

end TradingViewMCP
